import Mathlib

/-!
Verification of `generate_config.py`, a generator of webMUSHRA test
configuration documents. The Python module is embedded shallowly: its
dataclasses become structures, its module-level constants become Lean
constants, and `generate_config` / `generate_stimuli` / `main`'s file
writes become pure Lean functions over an explicit YAML-like value type.
Python dicts written as literals with string keys are modelled as
association lists (`List (String × _)`) preserving insertion order, with
`dictInsert` modelling Python's `d[k] = v` assignment semantics
(overwrite in place if the key exists, append otherwise).

`generate_config` reads the module-level constant `TRIALS`; to state
properties over every parameter table we factor it as
`generate_config_with trials bitrate` with `generate_config bitrate =
generate_config_with TRIALS bitrate`, mirroring the source body verbatim
otherwise.
-/

/-- Embeds the `BitrateCondition` dataclass: a bitrate condition for testing. -/
structure BitrateCondition where
  name : String
  suffix : String
  test_id : String
deriving Repr, DecidableEq

/-- Embeds the `Codec` dataclass: a codec/method to evaluate.
The source names the second field `file_prefix`; it is the filename
fragment prepended to the bitrate suffix. -/
structure Codec where
  name : String
  file_fragment : String
deriving Repr, DecidableEq

/-- Embeds the `Trial` dataclass: a single trial/audio item. -/
structure Trial where
  id : String
  directory : String
  category : String
  description : String
deriving Repr, DecidableEq

def EXPERIMENT_NAME : String := "Audio Codec Evaluation"

def AUDIO_BASE_PATH : String := "configs/resources/audio"

def BITRATE_CONDITIONS : List BitrateCondition :=
  [⟨"Test A", "4.3kbps", "mushra_test_a"⟩,
   ⟨"Test B", "7.7kbps", "mushra_test_b"⟩]

def CODECS : List Codec :=
  [⟨"HARP", "harp"⟩,
   ⟨"DAC", "dac"⟩,
   ⟨"BSCodec", "bscodec"⟩]

def REFERENCE_FILENAME : String := "reference.wav"

def ANCHOR_FILENAME : String := "anchor_3.5khz_lp.wav"

def HIDDEN_REF_LABEL : String := "hidden_ref"

def ANCHOR_LABEL : String := "anchor"

def TRIALS : List Trial :=
  [⟨"trial01", "trial01_music_classical", "Music", "Classical (Orchestra)"⟩,
   ⟨"trial02", "trial02_music_jazz", "Music", "Jazz (Vocal Trio)"⟩,
   ⟨"trial03", "trial03_music_pop", "Music", "Pop (Vocal-heavy)"⟩,
   ⟨"trial04", "trial04_music_electronic", "Music", "Electronic (EDM)"⟩,
   ⟨"trial05", "trial05_speech_male1", "Speech", "Male Speaker 1"⟩,
   ⟨"trial06", "trial06_speech_male2", "Speech", "Male Speaker 2"⟩,
   ⟨"trial07", "trial07_speech_female1", "Speech", "Female Speaker 1"⟩,
   ⟨"trial08", "trial08_speech_female2", "Speech", "Female Speaker 2"⟩,
   ⟨"trial09", "trial09_audio_environmental", "General Audio", "Environmental (Rain/Thunder)"⟩,
   ⟨"trial10", "trial10_audio_mechanical", "General Audio", "Mechanical (Engine)"⟩,
   ⟨"trial11", "trial11_audio_animal", "General Audio", "Animal (Birdsong)"⟩,
   ⟨"trial12", "trial12_audio_mixed", "General Audio", "Mixed (Crowd/Music)"⟩]

def TRAINING_TRIAL : Trial := ⟨"training", "training", "Practice", "Training Item"⟩

def SHOW_WAVEFORM : Bool := true

def ENABLE_LOOPING : Bool := true

def BUFFER_SIZE : Nat := 2048

/-- YAML-like values, the codomain of the nested dict/list structure the
source builds before handing it to `yaml.dump`. -/
inductive Value where
  | s (v : String)
  | b (v : Bool)
  | n (v : Nat)
  | null
  | dict (v : List (String × Value))
  | arr (v : List Value)

/-- A page / config mapping: an insertion-ordered association list,
modelling a Python dict with string keys. -/
abbrev Page := List (String × Value)

abbrev Config := List (String × Value)

/-- Python dict assignment `d[k] = v`: overwrites in place when the key
exists, otherwise appends at the end (insertion order preserved). -/
def dictInsert {α : Type} (d : List (String × α)) (k : String) (v : α) :
    List (String × α) :=
  if d.any (fun p => p.1 == k) then
    d.map (fun p => if p.1 == k then (k, v) else p)
  else
    d ++ [(k, v)]

/-- Embeds `get_audio_path`: generate full audio file path. -/
def get_audio_path (trial_dir : String) (filename : String) : String :=
  AUDIO_BASE_PATH ++ "/" ++ trial_dir ++ "/" ++ filename

/-- Embeds `get_codec_filename`: generate codec audio filename. -/
def get_codec_filename (codec : Codec) (bitrate : BitrateCondition) : String :=
  codec.file_fragment ++ "_" ++ bitrate.suffix ++ ".wav"

/-- Embeds `generate_stimuli`: stimuli dictionary for a trial
(hidden reference, low anchor, then one entry per codec). -/
def generate_stimuli (trial : Trial) (bitrate : BitrateCondition) :
    List (String × String) :=
  let stimuli : List (String × String) := []
  let stimuli := dictInsert stimuli HIDDEN_REF_LABEL
    (get_audio_path trial.directory REFERENCE_FILENAME)
  let stimuli := dictInsert stimuli ANCHOR_LABEL
    (get_audio_path trial.directory ANCHOR_FILENAME)
  CODECS.foldl
    (fun stimuli codec =>
      dictInsert stimuli codec.name
        (get_audio_path trial.directory (get_codec_filename codec bitrate)))
    stimuli

/-- Lifts a Python `Dict[str, str]` into the YAML value type. -/
def strDict (d : List (String × String)) : Value :=
  Value.dict (d.map (fun p => (p.1, Value.s p.2)))

/-- The INTRODUCTION page appended first by `generate_config`
(Python dict literal; `num_trials` is interpolated into the text). -/
def introduction_page (bitrate : BitrateCondition) (num_trials : Nat) : Page :=
  [("type", Value.s "generic"),
   ("id", Value.s "introduction"),
   ("name", Value.s "Welcome"),
   ("content", Value.s
     ("<h2>Audio Codec Listening Test - " ++ bitrate.name ++ "</h2>\n" ++
      "<p>Thank you for participating in this study evaluating audio codec quality.</p>\n" ++
      "<h3>Instructions:</h3>\n<ul>\n" ++
      "<li>Please use <strong>high-quality headphones</strong> in a quiet environment</li>\n" ++
      "<li>You will hear multiple versions of the same audio clip</li>\n" ++
      "<li>Rate each version from 0 (Bad) to 100 (Excellent) compared to the Reference</li>\n" ++
      "<li>The Reference represents the original, uncompressed audio</li>\n" ++
      "<li>You can replay and switch between samples as many times as needed</li>\n" ++
      "<li>There is no time limit</li>\n</ul>\n" ++
      "<h3>Rating Scale:</h3>\n<ul>\n" ++
      "<li><strong>80-100:</strong> Excellent - Imperceptible difference from reference</li>\n" ++
      "<li><strong>60-80:</strong> Good - Perceptible but not annoying</li>\n" ++
      "<li><strong>40-60:</strong> Fair - Slightly annoying</li>\n" ++
      "<li><strong>20-40:</strong> Poor - Annoying</li>\n" ++
      "<li><strong>0-20:</strong> Bad - Very annoying</li>\n</ul>\n" ++
      "<p>The test contains <strong>" ++ toString num_trials ++
      " trials</strong> and takes approximately <strong>20-25 minutes</strong>.</p>"))]

/-- The EQUIPMENT CHECK page (static dict literal in `generate_config`). -/
def headphone_check_page : Page :=
  [("type", Value.s "generic"),
   ("id", Value.s "headphone_check"),
   ("name", Value.s "Equipment Check"),
   ("content", Value.s
     ("<h2>Before You Begin</h2>\n<p>Please confirm the following:</p>\n<ul>\n" ++
      "<li>I am wearing <strong>high-quality headphones</strong> (not earbuds or speakers)</li>\n" ++
      "<li>I am in a <strong>quiet environment</strong></li>\n" ++
      "<li>I have adjusted my <strong>volume to a comfortable level</strong></li>\n" ++
      "<li>I will <strong>not adjust the volume</strong> during the test</li>\n</ul>\n" ++
      "<p>Click <strong>Next</strong> to proceed to a training trial.</p>"))]

/-- The TRAINING TRIAL page (dict literal in `generate_config`): a
`mushra`-type page over `TRAINING_TRIAL`. -/
def training_page (bitrate : BitrateCondition) : Page :=
  [("type", Value.s "mushra"),
   ("id", Value.s "training"),
   ("name", Value.s "Training Trial (Practice)"),
   ("content", Value.s
     ("This is a <strong>practice trial</strong> to familiarize yourself with the interface. " ++
      "Your ratings will NOT be recorded. Try clicking on different samples and adjusting " ++
      "the sliders. The \"Reference\" button always plays the original uncompressed audio.")),
   ("showWaveform", Value.b SHOW_WAVEFORM),
   ("enableLooping", Value.b ENABLE_LOOPING),
   ("reference", Value.s (get_audio_path TRAINING_TRIAL.directory REFERENCE_FILENAME)),
   ("createAnchor35", Value.b false),
   ("createAnchor70", Value.b false),
   ("stimuli", strDict (generate_stimuli TRAINING_TRIAL bitrate))]

/-- One TEST TRIAL page (dict literal in `generate_config`'s
`for i, trial in enumerate(TRIALS, start=1)` loop). -/
def trial_page (i : Nat) (num_trials : Nat) (trial : Trial)
    (bitrate : BitrateCondition) : Page :=
  [("type", Value.s "mushra"),
   ("id", Value.s trial.id),
   ("name", Value.s ("Trial " ++ toString i ++ " of " ++ toString num_trials)),
   ("content", Value.s "Rate the audio quality of each sample compared to the Reference."),
   ("showWaveform", Value.b SHOW_WAVEFORM),
   ("enableLooping", Value.b ENABLE_LOOPING),
   ("reference", Value.s (get_audio_path trial.directory REFERENCE_FILENAME)),
   ("createAnchor35", Value.b false),
   ("createAnchor70", Value.b false),
   ("stimuli", strDict (generate_stimuli trial bitrate))]

/-- The FINISH page (dict literal in `generate_config`). -/
def finish_page (bitrate : BitrateCondition) : Page :=
  [("type", Value.s "finish"),
   ("id", Value.s "finish"),
   ("name", Value.s "Thank You"),
   ("content", Value.s
     ("<h2>" ++ bitrate.name ++ " Complete</h2>\n" ++
      "<p>Thank you for completing the listening test!</p>\n" ++
      "<p><strong>Important:</strong> Please click the <strong>Send Results</strong> " ++
      "button below to submit your responses.</p>\n" ++
      "<p>If the button does not work, please download your results and email them " ++
      "to the researcher.</p>")),
   ("showResults", Value.b true),
   ("writeResults", Value.b true)]

/-- The `pages` list built by `generate_config`, with the module constant
`TRIALS` factored out as a parameter (`num_trials = len(TRIALS)`). -/
def generate_pages (trials : List Trial) (bitrate : BitrateCondition) : List Page :=
  [introduction_page bitrate trials.length,
   headphone_check_page,
   training_page bitrate]
  ++ trials.enum.map (fun p => trial_page (p.1 + 1) trials.length p.2 bitrate)
  ++ [finish_page bitrate]

/-- Embeds `generate_config` with the module constant `TRIALS` factored
out as the `trials` parameter: the complete MUSHRA config mapping for a
bitrate condition. -/
def generate_config_with (trials : List Trial) (bitrate : BitrateCondition) : Config :=
  [("testname", Value.s (EXPERIMENT_NAME ++ " - " ++ bitrate.name)),
   ("testId", Value.s bitrate.test_id),
   ("bufferSize", Value.n BUFFER_SIZE),
   ("stopOnErrors", Value.b true),
   ("showButtonPrevious", Value.b true),
   ("remoteService", Value.null),
   ("pages", Value.arr ((generate_pages trials bitrate).map Value.dict))]

/-- Embeds `generate_config` exactly as in the source: it reads the
module constant `TRIALS`. -/
def generate_config (bitrate : BitrateCondition) : Config :=
  generate_config_with TRIALS bitrate

mutual

/-- Modelled from the spec: `yaml.dump(config, sort_keys=False, ...)` is
library code outside this repository; the spec requires only that
serialization is a deterministic function of the document that preserves
page order and does not reorder mapping keys. We model it as an explicit
order-preserving structural rendering. -/
def dumpVal : Value → String
  | Value.s v => "s(" ++ v ++ ")"
  | Value.b true => "true"
  | Value.b false => "false"
  | Value.n v => toString v
  | Value.null => "null"
  | Value.dict l => "dict(" ++ dumpEntries l ++ ")"
  | Value.arr l => "arr(" ++ dumpArr l ++ ")"

/-- Renders a mapping's entries in insertion order. -/
def dumpEntries : List (String × Value) → String
  | [] => ""
  | (k, v) :: rest => k ++ ": " ++ dumpVal v ++ "; " ++ dumpEntries rest

/-- Renders a sequence's elements in order. -/
def dumpArr : List Value → String
  | [] => ""
  | v :: rest => dumpVal v ++ "; " ++ dumpArr rest

end

/-- Serializes a whole config document (the value `yaml.dump` receives is
the top-level dict). -/
def yaml_dump (config : Config) : String :=
  dumpVal (Value.dict config)

/-- Embeds `save_config`: writing `yaml.dump(config)` to `filename` is
modelled as producing the (filename, file content) pair. -/
def save_config (config : Config) (filename : String) : String × String :=
  (filename, yaml_dump config)

/-- The filename `main` chooses for a bitrate condition:
`f"{bitrate.test_id}.yaml"`. -/
def output_filename (bitrate : BitrateCondition) : String :=
  bitrate.test_id ++ ".yaml"

/-- The complete list of file writes performed by one run of `main`,
with the module constant `TRIALS` factored out as a parameter: `main`
loops over `BITRATE_CONDITIONS` and calls `save_config` once per
condition; no other statement in `main` opens a file (everything else is
`print` to stdout). -/
def main_writes_with (trials : List Trial) : List (String × String) :=
  BITRATE_CONDITIONS.map
    (fun bitrate => save_config (generate_config_with trials bitrate) (output_filename bitrate))

/-- The file writes of one run of `main` as shipped (over `TRIALS`). -/
def main_writes : List (String × String) :=
  main_writes_with TRIALS

/-- Concrete evaluation of the stimulus map for the training trial under
variant Test A, matching the paths the script produces. -/
theorem generate_stimuli_training_eval :
    generate_stimuli TRAINING_TRIAL ⟨"Test A", "4.3kbps", "mushra_test_a"⟩ =
    [("hidden_ref", "configs/resources/audio/training/reference.wav"),
     ("anchor", "configs/resources/audio/training/anchor_3.5khz_lp.wav"),
     ("HARP", "configs/resources/audio/training/harp_4.3kbps.wav"),
     ("DAC", "configs/resources/audio/training/dac_4.3kbps.wav"),
     ("BSCodec", "configs/resources/audio/training/bscodec_4.3kbps.wav")] := by
  rfl

/-- The first bitrate condition of the source, `BITRATE_CONDITIONS[0]`,
used as a concrete input in witnesses and counterexamples. -/
def test_a : BitrateCondition := ⟨"Test A", "4.3kbps", "mushra_test_a"⟩

/-- Two distinct string tags cannot be carried by the same optional
`"type"` entry; used to discriminate page types. -/
theorem tag_clash {s₁ s₂ : String} (h : some (Value.s s₁) = some (Value.s s₂))
    (hne : ¬s₁ = s₂) : False := by
  injection h with h1
  injection h1 with h2
  exact hne h2

/-- Extracts the hidden-reference entry of a stimuli value. -/
def hiddenRefOf : Value → Option Value
  | Value.dict l => List.lookup HIDDEN_REF_LABEL l
  | _ => none

/-- Mapping a lookup of `"id"` over the scored-trial pages recovers the
trial ids in declared order, whatever the enumeration start index. -/
theorem trial_pages_id_map (bitrate : BitrateCondition) (n : Nat) (k : Nat)
    (l : List Trial) :
    ((List.enumFrom k l).map (fun p => trial_page (p.1 + 1) n p.2 bitrate)).map
        (fun p => List.lookup "id" p)
      = l.map (fun t => some (Value.s t.id)) := by
  induction l generalizing k with
  | nil => rfl
  | cons t ts ih =>
      simp only [List.enumFrom, List.map_cons]
      have h1 : List.lookup "id" (trial_page (k + 1) n t bitrate)
          = some (Value.s t.id) := rfl
      rw [h1, ih (k + 1)]

/-- Claim C1: for every parameter table with N scored trials,
`generate_config`'s page list has exactly N + 4 entries, in the fixed
order introduction, equipment check, practice trial, the N scored trials
in declared order, finish. -/
theorem c1_pages_count_and_order (trials : List Trial) (bitrate : BitrateCondition) :
    (generate_pages trials bitrate).length = trials.length + 4 ∧
    (generate_pages trials bitrate).map (fun p => List.lookup "id" p)
      = [some (Value.s "introduction"), some (Value.s "headphone_check"),
         some (Value.s "training")]
        ++ trials.map (fun t => some (Value.s t.id))
        ++ [some (Value.s "finish")] := by
  refine ⟨?_, ?_⟩
  · simp [generate_pages]
  · have hmid := trial_pages_id_map bitrate trials.length 0 trials
    simp only [generate_pages, List.enum, List.map_append]
    rw [hmid]
    rfl

/-- Claim C3: for every Trial and Variant, the stimulus map has exactly
`2 + |CODECS|` entries, its key list is hidden_ref, anchor followed by
the codec display names, and the keys are pairwise distinct. -/
theorem c3_stimulus_map_keys (trial : Trial) (bitrate : BitrateCondition) :
    (generate_stimuli trial bitrate).map Prod.fst
        = [HIDDEN_REF_LABEL, ANCHOR_LABEL] ++ CODECS.map Codec.name ∧
    (generate_stimuli trial bitrate).length = 2 + CODECS.length ∧
    ((generate_stimuli trial bitrate).map Prod.fst).Nodup := by
  refine ⟨rfl, rfl, ?_⟩
  have h : (generate_stimuli trial bitrate).map Prod.fst
      = ["hidden_ref", "anchor", "HARP", "DAC", "BSCodec"] := rfl
  rw [h]
  decide

/-- Claim C6: for every `(Trial, Variant)` pair the hidden-reference and
anchor stimulus paths are the fixed filenames under the trial's source
directory, each codec's path is
`<source_directory>/<file_fragment>_<variant suffix>.wav`, and in
particular the derived filename for fragment "harp" and suffix "4.3kbps"
is exactly "harp_4.3kbps.wav". -/
theorem c6_stimulus_paths (trial : Trial) (bitrate : BitrateCondition)
    (codec : Codec) (hc : codec ∈ CODECS) :
    List.lookup HIDDEN_REF_LABEL (generate_stimuli trial bitrate)
        = some (get_audio_path trial.directory REFERENCE_FILENAME) ∧
    List.lookup ANCHOR_LABEL (generate_stimuli trial bitrate)
        = some (get_audio_path trial.directory ANCHOR_FILENAME) ∧
    List.lookup codec.name (generate_stimuli trial bitrate)
        = some (get_audio_path trial.directory
            (codec.file_fragment ++ "_" ++ bitrate.suffix ++ ".wav")) ∧
    get_codec_filename ⟨"HARP", "harp"⟩ ⟨"Test A", "4.3kbps", "mushra_test_a"⟩
        = "harp_4.3kbps.wav" := by
  refine ⟨rfl, rfl, ?_, rfl⟩
  simp only [CODECS, List.mem_cons, List.not_mem_nil, or_false] at hc
  rcases hc with rfl | rfl | rfl <;> rfl

/-- Witness for C6 at codec HARP, the training trial and variant Test A. -/
theorem c6_stimulus_paths_witness :
    List.lookup "HARP"
        (generate_stimuli TRAINING_TRIAL ⟨"Test A", "4.3kbps", "mushra_test_a"⟩)
      = some (get_audio_path TRAINING_TRIAL.directory
          ("harp" ++ "_" ++ "4.3kbps" ++ ".wav")) :=
  (c6_stimulus_paths TRAINING_TRIAL ⟨"Test A", "4.3kbps", "mushra_test_a"⟩
      ⟨"HARP", "harp"⟩ (by decide)).2.2.1

/-- Claim C7: the builder is deterministic and side-effect free — two
calls on equal parameter tables and equal variants return equal
documents, and the serialized outputs are identical. The embedding is a
total pure function because the source reads only immutable module
constants and uses no randomness or external state. -/
theorem c7_deterministic (trials₁ trials₂ : List Trial)
    (b₁ b₂ : BitrateCondition) (ht : trials₁ = trials₂) (hb : b₁ = b₂) :
    generate_config_with trials₁ b₁ = generate_config_with trials₂ b₂ ∧
    yaml_dump (generate_config_with trials₁ b₁)
      = yaml_dump (generate_config_with trials₂ b₂) := by
  subst ht; subst hb; exact ⟨rfl, rfl⟩

/-- Witness for C7 at the shipped trial table and variant Test A. -/
theorem c7_deterministic_witness :
    generate_config_with TRIALS ⟨"Test A", "4.3kbps", "mushra_test_a"⟩
        = generate_config_with TRIALS ⟨"Test A", "4.3kbps", "mushra_test_a"⟩ ∧
    yaml_dump (generate_config_with TRIALS ⟨"Test A", "4.3kbps", "mushra_test_a"⟩)
        = yaml_dump (generate_config_with TRIALS ⟨"Test A", "4.3kbps", "mushra_test_a"⟩) :=
  c7_deterministic TRIALS TRIALS ⟨"Test A", "4.3kbps", "mushra_test_a"⟩
    ⟨"Test A", "4.3kbps", "mushra_test_a"⟩ rfl rfl

/-- Claim C8: for every Variant the emitted document file is named
`<test_id>.yaml`, and the top-level mapping holds exactly the keys
testname, testId, bufferSize, stopOnErrors, showButtonPrevious,
remoteService, pages, in that order. -/
theorem c8_document_keys_and_filename (trials : List Trial)
    (bitrate : BitrateCondition) :
    (save_config (generate_config_with trials bitrate) (output_filename bitrate)).1
        = bitrate.test_id ++ ".yaml" ∧
    (generate_config_with trials bitrate).map Prod.fst
        = ["testname", "testId", "bufferSize", "stopOnErrors",
           "showButtonPrevious", "remoteService", "pages"] :=
  ⟨rfl, rfl⟩

/-- Claim C2 counterexample: the builder performs no fail-fast
validation. On an empty trial list it still returns a complete 4-page
document (introduction, equipment check, practice, finish) and a run of
`main` over that table still writes one file per variant; a duplicated
trial id is also accepted, producing one scored page per occurrence. -/
theorem c2_counterexample :
    (generate_pages [] test_a).length = 4 ∧
    (generate_pages [] test_a).map (fun p => List.lookup "id" p)
      = [some (Value.s "introduction"), some (Value.s "headphone_check"),
         some (Value.s "training"), some (Value.s "finish")] ∧
    (main_writes_with []).map Prod.fst
      = ["mushra_test_a.yaml", "mushra_test_b.yaml"] ∧
    (generate_pages [⟨"trial01", "d", "Music", "x"⟩, ⟨"trial01", "d", "Music", "x"⟩]
        test_a).length = 6 :=
  ⟨rfl, rfl, rfl, rfl⟩

/-- Claim C2 (amended): the builder performs no input validation and
never fails: for every trial list — empty or with duplicated ids — it
totally returns a document with `trials.length + 4` pages, and a run
still writes one document file per bitrate condition. -/
theorem c2_no_validation (trials : List Trial) :
    (∀ bitrate : BitrateCondition,
      (generate_pages trials bitrate).length = trials.length + 4) ∧
    (main_writes_with trials).length = BITRATE_CONDITIONS.length := by
  refine ⟨fun bitrate => ?_, rfl⟩
  simp [generate_pages]

/-- Claim C4 counterexample: the complete write list of one run of
`main` is the two `.yaml` documents, one per bitrate condition — no
scaffolding shell script and no checklist file is written (`main` only
prints those instructions to stdout). -/
theorem c4_counterexample :
    main_writes.map Prod.fst = ["mushra_test_a.yaml", "mushra_test_b.yaml"] ∧
    main_writes.length = 2 :=
  ⟨rfl, rfl⟩

/-- Claim C4 (amended): one run of the program writes exactly one
document file per Variant, named by `output_filename` and holding the
serialized document for that variant, and nothing else. -/
theorem c4_writes_one_file_per_variant (trials : List Trial) :
    (main_writes_with trials).map Prod.fst = BITRATE_CONDITIONS.map output_filename ∧
    (main_writes_with trials).length = BITRATE_CONDITIONS.length ∧
    main_writes_with trials
      = BITRATE_CONDITIONS.map
          (fun b => (output_filename b, yaml_dump (generate_config_with trials b))) :=
  ⟨rfl, rfl, rfl⟩

/-- Claim C5 counterexample: in the generated document for Test A the
practice page (index 2) and the first scored trial page (index 3) have
exactly the same key set and the same page type `mushra`: there is no
suppression flag present on the practice page and absent from scored
pages. -/
theorem c5_counterexample :
    (generate_pages TRIALS test_a).get? 2 = some (training_page test_a) ∧
    (generate_pages TRIALS test_a).get? 3
      = some (trial_page 1 12
          ⟨"trial01", "trial01_music_classical", "Music", "Classical (Orchestra)"⟩
          test_a) ∧
    (training_page test_a).map Prod.fst
      = (trial_page 1 12
          ⟨"trial01", "trial01_music_classical", "Music", "Classical (Orchestra)"⟩
          test_a).map Prod.fst ∧
    List.lookup "type" (training_page test_a) = some (Value.s "mushra") ∧
    List.lookup "type"
        (trial_page 1 12
          ⟨"trial01", "trial01_music_classical", "Music", "Classical (Orchestra)"⟩
          test_a)
      = some (Value.s "mushra") :=
  ⟨rfl, rfl, rfl, rfl, rfl⟩

/-- Claim C5 (amended): the practice page is not distinguished from
scored trial pages by any flag: for every variant, index and scored
trial it has the identical key set and the same `mushra` page type, and
differs only in the values carried under id, name, content, reference
and stimuli (its non-recording status is stated in its content text
only). -/
theorem c5_practice_same_shape (bitrate : BitrateCondition) (i n : Nat)
    (trial : Trial) :
    (training_page bitrate).map Prod.fst = (trial_page i n trial bitrate).map Prod.fst ∧
    List.lookup "type" (training_page bitrate)
      = List.lookup "type" (trial_page i n trial bitrate) ∧
    List.lookup "id" (training_page bitrate) = some (Value.s "training") ∧
    List.lookup "id" (trial_page i n trial bitrate) = some (Value.s trial.id) :=
  ⟨rfl, rfl, rfl, rfl⟩

/-- Claim C9: in every generated document, each page tagged `mushra`
holds the keys reference, stimuli, showWaveform, enableLooping,
createAnchor35, createAnchor70, and each page tagged `finish` holds the
keys showResults and writeResults. -/
theorem c9_required_page_keys (trials : List Trial) (bitrate : BitrateCondition)
    (page : Page) (hp : page ∈ generate_pages trials bitrate) :
    (List.lookup "type" page = some (Value.s "mushra") →
      ("reference" ∈ page.map Prod.fst ∧ "stimuli" ∈ page.map Prod.fst ∧
       "showWaveform" ∈ page.map Prod.fst ∧ "enableLooping" ∈ page.map Prod.fst ∧
       "createAnchor35" ∈ page.map Prod.fst ∧ "createAnchor70" ∈ page.map Prod.fst)) ∧
    (List.lookup "type" page = some (Value.s "finish") →
      ("showResults" ∈ page.map Prod.fst ∧ "writeResults" ∈ page.map Prod.fst)) := by
  unfold generate_pages at hp
  rcases List.mem_append.1 hp with h1 | hfin
  · rcases List.mem_append.1 h1 with hhead | hmid
    · simp only [List.mem_cons, List.not_mem_nil, or_false] at hhead
      rcases hhead with rfl | rfl | rfl
      · exact ⟨fun h => (tag_clash h (by decide)).elim,
               fun h => (tag_clash h (by decide)).elim⟩
      · exact ⟨fun h => (tag_clash h (by decide)).elim,
               fun h => (tag_clash h (by decide)).elim⟩
      · have hk : (training_page bitrate).map Prod.fst
            = ["type", "id", "name", "content", "showWaveform", "enableLooping",
               "reference", "createAnchor35", "createAnchor70", "stimuli"] := rfl
        rw [hk]
        exact ⟨fun _ => by decide, fun h => (tag_clash h (by decide)).elim⟩
    · rcases List.mem_map.1 hmid with ⟨p, hpmem, rfl⟩
      have hk : (trial_page (p.1 + 1) trials.length p.2 bitrate).map Prod.fst
          = ["type", "id", "name", "content", "showWaveform", "enableLooping",
             "reference", "createAnchor35", "createAnchor70", "stimuli"] := rfl
      rw [hk]
      exact ⟨fun _ => by decide, fun h => (tag_clash h (by decide)).elim⟩
  · simp only [List.mem_cons, List.not_mem_nil, or_false] at hfin
    subst hfin
    have hk : (finish_page bitrate).map Prod.fst
        = ["type", "id", "name", "content", "showResults", "writeResults"] := rfl
    rw [hk]
    exact ⟨fun h => (tag_clash h (by decide)).elim, fun _ => by decide⟩

/-- Witness for C9: the practice page (a `mushra` page) and the finish
page of the document for an empty trial table and variant Test A. -/
theorem c9_required_page_keys_witness :
    ("reference" ∈ (training_page test_a).map Prod.fst ∧
     "stimuli" ∈ (training_page test_a).map Prod.fst ∧
     "showWaveform" ∈ (training_page test_a).map Prod.fst ∧
     "enableLooping" ∈ (training_page test_a).map Prod.fst ∧
     "createAnchor35" ∈ (training_page test_a).map Prod.fst ∧
     "createAnchor70" ∈ (training_page test_a).map Prod.fst) ∧
    ("showResults" ∈ (finish_page test_a).map Prod.fst ∧
     "writeResults" ∈ (finish_page test_a).map Prod.fst) := by
  have hpages : generate_pages [] test_a
      = [introduction_page test_a 0, headphone_check_page, training_page test_a,
         finish_page test_a] := rfl
  have hmem1 : training_page test_a ∈ generate_pages [] test_a := by
    rw [hpages]
    exact List.Mem.tail _ (List.Mem.tail _ (List.Mem.head _))
  have hmem2 : finish_page test_a ∈ generate_pages [] test_a := by
    rw [hpages]
    exact List.Mem.tail _ (List.Mem.tail _ (List.Mem.tail _ (List.Mem.head _)))
  exact ⟨(c9_required_page_keys [] test_a (training_page test_a) hmem1).1 rfl,
         (c9_required_page_keys [] test_a (finish_page test_a) hmem2).2 rfl⟩

/-- Claim C10: every `mushra`-type page's reference field equals the
hidden_ref entry of its stimulus map, and its createAnchor35 and
createAnchor70 flags are both false. -/
theorem c10_reference_matches_hidden_ref (trials : List Trial)
    (bitrate : BitrateCondition) (page : Page)
    (hp : page ∈ generate_pages trials bitrate)
    (hm : List.lookup "type" page = some (Value.s "mushra")) :
    (List.lookup "stimuli" page).bind hiddenRefOf = List.lookup "reference" page ∧
    (List.lookup "reference" page).isSome = true ∧
    List.lookup "createAnchor35" page = some (Value.b false) ∧
    List.lookup "createAnchor70" page = some (Value.b false) := by
  unfold generate_pages at hp
  rcases List.mem_append.1 hp with h1 | hfin
  · rcases List.mem_append.1 h1 with hhead | hmid
    · simp only [List.mem_cons, List.not_mem_nil, or_false] at hhead
      rcases hhead with rfl | rfl | rfl
      · exact (tag_clash hm (by decide)).elim
      · exact (tag_clash hm (by decide)).elim
      · exact ⟨rfl, rfl, rfl, rfl⟩
    · rcases List.mem_map.1 hmid with ⟨p, hpmem, rfl⟩
      exact ⟨rfl, rfl, rfl, rfl⟩
  · simp only [List.mem_cons, List.not_mem_nil, or_false] at hfin
    subst hfin
    exact (tag_clash hm (by decide)).elim

/-- Witness for C10: the practice page of the document for an empty
trial table and variant Test A. -/
theorem c10_reference_matches_hidden_ref_witness :
    (List.lookup "stimuli" (training_page test_a)).bind hiddenRefOf
        = List.lookup "reference" (training_page test_a) ∧
    (List.lookup "reference" (training_page test_a)).isSome = true ∧
    List.lookup "createAnchor35" (training_page test_a) = some (Value.b false) ∧
    List.lookup "createAnchor70" (training_page test_a) = some (Value.b false) := by
  have hpages : generate_pages [] test_a
      = [introduction_page test_a 0, headphone_check_page, training_page test_a,
         finish_page test_a] := rfl
  have hmem : training_page test_a ∈ generate_pages [] test_a := by
    rw [hpages]
    exact List.Mem.tail _ (List.Mem.tail _ (List.Mem.head _))
  exact c10_reference_matches_hidden_ref [] test_a (training_page test_a) hmem rfl
